import Mathlib

/-!
Verification of the TimeSolv API client (`src/timesolv_api/timesolv_api.py`).

The module is shallowly embedded: JSON values, the Python exceptions the module
can raise, HTTP transport outcomes (supplied by an oracle indexed by the order
in which requests are issued), the `_request` helper, `_get_access_token` /
`__init__`, and the five paginated list operations with their `while True`
loops (modelled with explicit fuel, since the Python loop is unbounded when
the server keeps answering full pages).
-/

/-- JSON values, as produced by `response.json()` and consumed by the client.
Numbers are modelled as integers; no payload or response in this module uses
fractional values. -/
inductive Json where
  | null
  | bool (b : Bool)
  | int (n : Int)
  | str (s : String)
  | arr (elems : List Json)
  | obj (fields : List (String × Json))

/-- The Python exceptions that `timesolv_api.py` can let escape to the caller:
`TimeSolvAPIError` (the module's single custom exception class, line 13,
raised with a formatted message), `KeyError` (dict indexing, line 43),
`NameError` (the undefined names `false`, `true`, `firm_list` in
`get_firm_users` / `get_timecards` / `get_taskcodes`), `AttributeError`
(calling `.get` on a non-dict) and `TypeError` (indexing or iterating a value
of the wrong type). -/
inductive PyExn where
  | timeSolvAPIError (msg : String)
  | keyError (key : String)
  | nameError (name : String)
  | attributeError (attr : String)
  | typeError (msg : String)
deriving DecidableEq

/-- The Python class of an exception value: this is what an
`except SomeClass:` clause in a caller can discriminate on. -/
def PyExn.cls : PyExn → String
  | .timeSolvAPIError _ => "TimeSolvAPIError"
  | .keyError _ => "KeyError"
  | .nameError _ => "NameError"
  | .attributeError _ => "AttributeError"
  | .typeError _ => "TypeError"

/-- Python truthiness of a JSON value (`if not users: break`). -/
def pyTruthy : Json → Bool
  | .null => false
  | .bool b => b
  | .int n => !(n == 0)
  | .str s => !(s == "")
  | .arr xs => !xs.isEmpty
  | .obj fs => !fs.isEmpty

/-- Lookup in a Python dict represented as an association list built by
insertion order; a later binding for the same key overwrites an earlier one,
so the last matching binding wins. -/
def pyDictGet (d : List (String × Json)) (k : String) : Option Json :=
  d.reverse.lookup k

/-- Python `str.lower()` on a key, character by character (all keys this
module looks up are ASCII). -/
def strLower (s : String) : String := ⟨s.data.map Char.toLower⟩

/-- `{k.lower(): v for k, v in config_data.items()}` (line 31). -/
def lowerKeys (d : List (String × Json)) : List (String × Json) :=
  d.map (fun kv => (strLower kv.1, kv.2))

/-- `d.get(k)` followed by Python truthiness, as used in the credential check
`if config_data_lower.get(client_id) and ...` (line 33). -/
def cfgHas (d : List (String × Json)) (k : String) : Bool :=
  match pyDictGet d k with
  | some v => pyTruthy v
  | none => false

/-- The credential-presence condition of `_get_access_token` (line 33):
all four of `client_id`, `client_secret`, `auth_code`, `redirect_uri` must be
present (after lowercasing keys) with truthy values. -/
def hasAllCreds (cfg : List (String × Json)) : Bool :=
  cfgHas (lowerKeys cfg) "client_id" && cfgHas (lowerKeys cfg) "client_secret" &&
    cfgHas (lowerKeys cfg) "auth_code" && cfgHas (lowerKeys cfg) "redirect_uri"

/-- Python `response_data.get(key, [])` (e.g. line 289): on a dict, the stored
value or the default empty list; on any other value `.get` does not exist and
an `AttributeError` is raised. -/
def pyGet (j : Json) (k : String) : Except PyExn Json :=
  match j with
  | .obj fs => .ok ((pyDictGet fs k).getD (.arr []))
  | _ => .error (.attributeError "get")

/-- Python `token_data[access_token]` (line 43): dict indexing raises
`KeyError` when the key is absent and `TypeError` on a non-dict. -/
def pySubscript (j : Json) (k : String) : Except PyExn Json :=
  match j with
  | .obj fs =>
    match pyDictGet fs k with
    | some v => .ok v
    | none => .error (.keyError k)
  | _ => .error (.typeError "object is not subscriptable")

/-- Python iteration of a JSON value, as consumed by `list.extend(...)`
(line 296): lists yield their elements, strings their one-character
substrings, dicts their keys; other values are not iterable. -/
def pyIter : Json → Except PyExn (List Json)
  | .arr xs => .ok xs
  | .str s => .ok (s.data.map (fun ch => .str (String.singleton ch)))
  | .obj fs => .ok (fs.map (fun f => Json.str f.1))
  | _ => .error (.typeError "object is not iterable")

mutual

/-- Python `str()` of a JSON value, used only by the f-string building the
Authorization header (line 24). Exact for `None`, booleans, integers and
strings (the only shapes a token takes in this module); container values are
rendered with their delimiters but without Python's inner `repr` quoting,
which no call site observes. -/
def pyStr : Json → String
  | .null => "None"
  | .bool true => "True"
  | .bool false => "False"
  | .int n => toString n
  | .str s => s
  | .arr xs => "[" ++ pyStrElems xs ++ "]"
  | .obj fs => "\x7b" ++ pyStrFields fs ++ "\x7d"

def pyStrElems : List Json → String
  | [] => ""
  | [x] => pyStr x
  | x :: y :: rest => pyStr x ++ ", " ++ pyStrElems (y :: rest)

def pyStrFields : List (String × Json) → String
  | [] => ""
  | [(k, v)] => k ++ ": " ++ pyStr v
  | (k, v) :: f :: rest => k ++ ": " ++ pyStr v ++ ", " ++ pyStrFields (f :: rest)

end

/-- An HTTP response as the `requests` library hands it back: final status
code, raw body text, the reason phrase, and the result of `response.json()`
(`Except.error` carries the `ValueError` message when the body is not valid
JSON). -/
structure HttpResponse where
  status : Nat
  text : String
  reason : String
  jsonBody : Except String Json

/-- Outcome of handing one request to the transport: either a final response,
or a `requests.RequestException` with the given message. -/
inductive TransportOutcome where
  | response (r : HttpResponse)
  | netError (e : String)

/-- One request as passed to `requests.request` (line 57): method, resolved
URL, optional headers, optional `json=` payload and optional `data=` body. -/
structure HttpRequest where
  method : String
  url : String
  headers : Option (List (String × String))
  jsonPayload : Option Json
  formData : Option Json

/-- `urllib.parse.urljoin` restricted to the shapes this module uses: the base
URL ends in a slash and every endpoint is a plain relative segment
(`Token`, `firmUserSearch`, ...), for which urljoin is string append. -/
def urljoin (base endpoint : String) : String := base ++ endpoint

/-- Message format of the `except requests.HTTPError` branch (line 61). -/
def httpErrorMsg (e body : String) : String :=
  "HTTP error occurred: " ++ e ++ " - Response: " ++ body

/-- Message format of the `except requests.RequestException` branch (line 63). -/
def transportErrorMsg (url e : String) : String :=
  "Error making request to " ++ url ++ ": " ++ e

/-- Message format of the `except ValueError` branch (line 65). -/
def decodeErrorMsg (url e : String) : String :=
  "Error parsing JSON response from " ++ url ++ ": " ++ e

/-- The string form of the `requests.HTTPError` that `raise_for_status`
produces for a 4xx/5xx response (external library behaviour). -/
def httpExnStr (r : HttpResponse) (url : String) : String :=
  toString r.status ++
    (if r.status < 500 then " Client Error: " else " Server Error: ") ++
    r.reason ++ " for url: " ++ url

/-- `TimeSolvAPI._request` (lines 48-65). The transport oracle maps the index
of the request (in issue order within one top-level call) to its outcome.
`raise_for_status` raises exactly for status codes in [400, 600); a transport
error and a JSON-decoding error are translated by the two remaining `except`
branches. The issued request is returned alongside the result. -/
def timesolvRequest (oracle : Nat → TransportOutcome) (idx : Nat)
    (base method endpoint : String) (headers : Option (List (String × String)))
    (jsonPayload : Option Json) (formData : Option Json) :
    Except PyExn Json × HttpRequest :=
  let full_url := urljoin base endpoint
  (match oracle idx with
   | .netError e => .error (.timeSolvAPIError (transportErrorMsg full_url e))
   | .response r =>
     if 400 ≤ r.status ∧ r.status < 600 then
       .error (.timeSolvAPIError (httpErrorMsg (httpExnStr r full_url) r.text))
     else
       match r.jsonBody with
       | .ok j => .ok j
       | .error e => .error (.timeSolvAPIError (decodeErrorMsg full_url e)),
   ⟨method, full_url, headers, jsonPayload, formData⟩)

/-- `TimeSolvAPI._get_access_token` (lines 29-45): lowercase the config keys,
require truthy `client_id`, `client_secret`, `auth_code` and `redirect_uri`,
post the authorization-code grant to `Token` as form data and index the JSON
response at `access_token`; otherwise raise the single
`TimeSolvAPIError("Missing required authentication parameters.")` without
issuing any request. Also returns the list of requests issued. -/
def getAccessToken (oracle : Nat → TransportOutcome) (base : String)
    (cfg : List (String × Json)) : Except PyExn Json × List HttpRequest :=
  let d := lowerKeys cfg
  if cfgHas d "client_id" && cfgHas d "client_secret" &&
      cfgHas d "auth_code" && cfgHas d "redirect_uri" then
    let access_data : Json := .obj [
      ("client_id", (pyDictGet d "client_id").getD .null),
      ("client_secret", (pyDictGet d "client_secret").getD .null),
      ("grant_type", .str "authorization_code"),
      ("code", (pyDictGet d "auth_code").getD .null),
      ("redirect_uri", (pyDictGet d "redirect_uri").getD .null)]
    match timesolvRequest oracle 0 base "POST" "Token" none none (some access_data) with
    | (.error e, req) => (.error e, [req])
    | (.ok token_data, req) =>
      match pySubscript token_data "access_token" with
      | .error e => (.error e, [req])
      | .ok tok => (.ok tok, [req])
  else
    (.error (.timeSolvAPIError "Missing required authentication parameters."), [])

/-- The client state set up by `TimeSolvAPI.__init__` (lines 20-26). -/
structure Client where
  base_url : String
  access_token : Json
  headers : List (String × String)

/-- Default `base_url` of `TimeSolvAPI.__init__` (line 20). -/
def defaultBaseURL : String := "https://apps.timesolv.com/Services/rest/oAuth2V1/"

/-- `TimeSolvAPI.__init__` (lines 20-26): store the base URL, exchange the
credentials for a token, and derive the two request headers from it. Returns
the constructed client (or the escaping exception) together with the list of
HTTP requests issued during construction. -/
def initClient (cfg : List (String × Json)) (base : String)
    (oracle : Nat → TransportOutcome) : Except PyExn Client × List HttpRequest :=
  match getAccessToken oracle base cfg with
  | (.error e, log) => (.error e, log)
  | (.ok tok, log) =>
    (.ok { base_url := base, access_token := tok,
           headers := [("Authorization", "Bearer " ++ pyStr tok),
                       ("Content-Type", "application/json")] }, log)

/-- The search payload of `get_abbreviations` (lines 222-236). -/
def abbreviationsPayload (page_size page_number : Nat) : Json :=
  .obj [("OrderBy", .str "Id"), ("SortOrderAscending", .bool false),
        ("PageSize", .int page_size), ("PageNumber", .int page_number),
        ("Criteria", .arr [.obj [("FieldName", .str "IsActive"),
                                 ("Operator", .str "="), ("Value", .int 1)]])]

/-- The search payload of `get_clients` (lines 269-283). -/
def clientsPayload (page_size page_number : Nat) : Json :=
  .obj [("OrderBy", .str "Id"), ("SortOrderAscending", .bool false),
        ("PageSize", .int page_size), ("PageNumber", .int page_number),
        ("Criteria", .arr [.obj [("FieldName", .str "ClientStatus"),
                                 ("Operator", .str "="), ("Value", .str "Active")]])]

/-- Building the `get_firm_users` payload (lines 84-97) raises `NameError`:
the dict literal's second value is the undefined name `false` (line 86),
reached right after evaluating the literal "Id". -/
def firmUsersPayload (_page_size _page_number : Nat) : Except PyExn Json :=
  .error (.nameError "false")

/-- Building the `get_timecards` payload (lines 135-152) raises `NameError`:
after the `Criteria` entries and the literal "Date", the value of
`SortOrderAscending` is the undefined name `true` (line 149). -/
def timecardsPayload (_fuid : Int) (_sd _ed : String) (_page_size _page_number : Nat) :
    Except PyExn Json :=
  .error (.nameError "true")

/-- Building the `get_taskcodes` payload (lines 189-201) raises `NameError`:
the value of `SortOrderAscending` is the undefined name `false` (line 191). -/
def taskcodesPayload (_page_size _page_number : Nat) : Except PyExn Json :=
  .error (.nameError "false")

/-- The accumulation step shared by four of the list operations
(`acc.extend(page)` on the accumulator that is also returned). -/
def appendExtend (acc xs : List Json) : Except PyExn (List Json) :=
  .ok (acc ++ xs)

/-- The accumulation step of `get_firm_users` (line 101): the code calls
`firm_list.extend(users)` but no name `firm_list` is defined, so reaching
this statement would raise `NameError`. (It is unreachable because the
payload construction raises first.) -/
def firmUsersExtend (_acc _xs : List Json) : Except PyExn (List Json) :=
  .error (.nameError "firm_list")

/-- Outcome of one iteration of a pagination loop: either the operation
finishes with a result (a return or an escaping exception), or it continues
with the grown accumulator. -/
inductive StepOut where
  | halt (res : Except PyExn (List Json))
  | next (acc2 : List Json)

/-- The request a list operation issues for a given payload: a POST to the
endpoint resolved against the client's base URL, carrying the client's
headers and the payload as the JSON body, with no form data. -/
def mkSearchReq (c : Client) (endpoint : String) (payload : Json) : HttpRequest :=
  ⟨"POST", urljoin c.base_url endpoint, some c.headers, some payload, none⟩

/-- One iteration of the shared pagination loop body, after the payload has
been built (e.g. lines 285-298 for `get_clients`): issue the POST with the
client's headers (the request issued is `mkSearchReq`), read the named array
from the response with `[]` as default, `break` returning the accumulator if
it is falsy, otherwise extend the accumulator; finish if the page is shorter
than the page size, else continue. -/
def searchStep (c : Client) (oracle : Nat → TransportOutcome)
    (endpoint arrayName : String)
    (extendStep : List Json → List Json → Except PyExn (List Json))
    (page_size : Nat) (payload : Json) (acc : List Json) (idx : Nat) : StepOut :=
  match (timesolvRequest oracle idx c.base_url "POST" endpoint (some c.headers)
      (some payload) none).1 with
  | .error e => .halt (.error e)
  | .ok responseData =>
    match pyGet responseData arrayName with
    | .error e => .halt (.error e)
    | .ok pageVal =>
      if pyTruthy pageVal then
        match pyIter pageVal with
        | .error e => .halt (.error e)
        | .ok xs =>
          match extendStep acc xs with
          | .error e => .halt (.error e)
          | .ok acc2 =>
            if xs.length < page_size then .halt (.ok acc2)
            else .next acc2
      else .halt (.ok acc)

/-- The shared `while True` pagination loop (lines 83-107, 134-164, 188-212,
221-255, 268-298: the five copies differ only in endpoint, array name,
payload and accumulation step, which are parameters here). Each iteration
first builds the payload (which raises in the three operations whose payload
references an undefined name), then runs `searchStep`. `fuel` bounds the
number of iterations: `none` models the Python loop not having terminated
within the given fuel. The result carries the value returned (or the
escaping exception), the requests issued in order, and the final client. -/
def searchLoop (c : Client) (oracle : Nat → TransportOutcome)
    (endpoint arrayName : String)
    (mkPayload : Nat → Nat → Except PyExn Json)
    (extendStep : List Json → List Json → Except PyExn (List Json))
    (page_size : Nat) :
    Nat → Nat → List Json → List HttpRequest →
    Option (Except PyExn (List Json) × List HttpRequest × Client)
  | 0, _, _, _ => none
  | fuel + 1, page_number, acc, log =>
    match mkPayload page_size page_number with
    | .error e => some (.error e, log, c)
    | .ok payload =>
      match searchStep c oracle endpoint arrayName extendStep page_size payload acc
          log.length with
      | .halt res => some (res, log ++ [mkSearchReq c endpoint payload], c)
      | .next acc2 =>
        searchLoop c oracle endpoint arrayName mkPayload extendStep page_size fuel
          (page_number + 1) acc2 (log ++ [mkSearchReq c endpoint payload])

/-- `TimeSolvAPI.get_firm_users` (lines 68-107). -/
def get_firm_users (c : Client) (oracle : Nat → TransportOutcome) (fuel : Nat) :
    Option (Except PyExn (List Json) × List HttpRequest × Client) :=
  searchLoop c oracle "firmUserSearch" "FirmUsers" firmUsersPayload firmUsersExtend
    100 fuel 1 [] []

/-- `TimeSolvAPI.get_timecards` (lines 109-164). -/
def get_timecards (c : Client) (firm_user_id : Int) (start_date end_date : String)
    (oracle : Nat → TransportOutcome) (fuel : Nat) :
    Option (Except PyExn (List Json) × List HttpRequest × Client) :=
  searchLoop c oracle "timecardSearch" "TimeCards"
    (timecardsPayload firm_user_id start_date end_date) appendExtend 100 fuel 1 [] []

/-- `TimeSolvAPI.get_taskcodes` (lines 166-212). -/
def get_taskcodes (c : Client) (oracle : Nat → TransportOutcome) (fuel : Nat) :
    Option (Except PyExn (List Json) × List HttpRequest × Client) :=
  searchLoop c oracle "taskcodeSearch" "TaskCodes" taskcodesPayload appendExtend
    100 fuel 1 [] []

/-- `TimeSolvAPI.get_abbreviations` (lines 214-255). -/
def get_abbreviations (c : Client) (oracle : Nat → TransportOutcome) (fuel : Nat) :
    Option (Except PyExn (List Json) × List HttpRequest × Client) :=
  searchLoop c oracle "abbreviationSearch" "Abbreviations"
    (fun ps pn => .ok (abbreviationsPayload ps pn)) appendExtend 100 fuel 1 [] []

/-- `TimeSolvAPI.get_clients` (lines 257-298). -/
def get_clients (c : Client) (oracle : Nat → TransportOutcome) (fuel : Nat) :
    Option (Except PyExn (List Json) × List HttpRequest × Client) :=
  searchLoop c oracle "clientSearch" "Clients"
    (fun ps pn => .ok (clientsPayload ps pn)) appendExtend 100 fuel 1 [] []

/-- The five list operations, with the `get_timecards` arguments carried by
its constructor so that the claims can quantify over all of them uniformly. -/
inductive ListOp where
  | firmUsers
  | timecards (firm_user_id : Int) (start_date end_date : String)
  | taskcodes
  | abbreviations
  | clients

/-- Endpoint path of each list operation. -/
def opEndpoint : ListOp → String
  | .firmUsers => "firmUserSearch"
  | .timecards _ _ _ => "timecardSearch"
  | .taskcodes => "taskcodeSearch"
  | .abbreviations => "abbreviationSearch"
  | .clients => "clientSearch"

/-- Named result array of each list operation. -/
def opArrayName : ListOp → String
  | .firmUsers => "FirmUsers"
  | .timecards _ _ _ => "TimeCards"
  | .taskcodes => "TaskCodes"
  | .abbreviations => "Abbreviations"
  | .clients => "Clients"

/-- Payload builder of each list operation. -/
def opPayload : ListOp → Nat → Nat → Except PyExn Json
  | .firmUsers => firmUsersPayload
  | .timecards fuid sd ed => timecardsPayload fuid sd ed
  | .taskcodes => taskcodesPayload
  | .abbreviations => fun ps pn => .ok (abbreviationsPayload ps pn)
  | .clients => fun ps pn => .ok (clientsPayload ps pn)

/-- Accumulation step of each list operation. -/
def opExtend : ListOp → List Json → List Json → Except PyExn (List Json)
  | .firmUsers => firmUsersExtend
  | _ => appendExtend

/-- Run a list operation on a client with a transport oracle and fuel. -/
def runOp (op : ListOp) (c : Client) (oracle : Nat → TransportOutcome) (fuel : Nat) :
    Option (Except PyExn (List Json) × List HttpRequest × Client) :=
  match op with
  | .firmUsers => get_firm_users c oracle fuel
  | .timecards fuid sd ed => get_timecards c fuid sd ed oracle fuel
  | .taskcodes => get_taskcodes c oracle fuel
  | .abbreviations => get_abbreviations c oracle fuel
  | .clients => get_clients c oracle fuel

/-- The records of one page of a transport outcome: the value of the named
array field of the JSON object body, or `[]` when the field is absent or the
outcome carries no such array. -/
def pageRecords (name : String) (t : TransportOutcome) : List Json :=
  match t with
  | .response r =>
    match r.jsonBody with
    | .ok (.obj fs) =>
      match pyDictGet fs name with
      | some (.arr xs) => xs
      | _ => []
    | _ => []
  | _ => []

/-- A transport outcome is benign for concatenation statements when its named
field, if present on a JSON object body, is an array (responses whose field
holds a non-array are excluded; everything else, including errors and absent
fields, is fine). -/
def fieldIsArrayOrMissing (name : String) (t : TransportOutcome) : Bool :=
  match t with
  | .response r =>
    match r.jsonBody with
    | .ok (.obj fs) =>
      match pyDictGet fs name with
      | some v => match v with | .arr _ => true | _ => false
      | none => true
    | _ => true
  | _ => true

/-- The payload shape every issued search request must have, at a given page
number: the five keys in order, `PageSize` fixed to 100, and each criterion
an object with `FieldName`, `Operator`, `Value`. -/
def SearchPayloadShape (p : Json) (pageNumber : Nat) : Prop :=
  ∃ ob so crit, p = .obj [("OrderBy", ob), ("SortOrderAscending", so),
      ("PageSize", .int 100), ("PageNumber", .int pageNumber),
      ("Criteria", .arr crit)] ∧
    ∀ cr ∈ crit, ∃ f o v,
      cr = .obj [("FieldName", f), ("Operator", o), ("Value", v)]

/-- Membership of a character sequence inside another. -/
def listHasSub (needle : List Char) : List Char → Bool
  | [] => needle.isEmpty
  | c :: cs => List.isPrefixOf needle (c :: cs) || listHasSub needle cs

/-- Whether `needle` occurs as a contiguous substring of `hay`. -/
def strContains (hay needle : String) : Bool := listHasSub needle.data hay.data

/-- A complete credential mapping as `_get_access_token` expects it: the
authorization code is supplied under the key `auth_code`. -/
def cfgAuthCode : List (String × Json) :=
  [("client_id", .str "id"), ("client_secret", .str "secret"),
   ("auth_code", .str "code"), ("redirect_uri", .str "uri")]

/-- A credential mapping missing the authorization code entirely. -/
def cfgMissing : List (String × Json) :=
  [("client_id", .str "id"), ("client_secret", .str "secret"),
   ("redirect_uri", .str "uri")]

/-- A token endpoint that answers 200 with a bearer token. -/
def goodTokenOracle : Nat → TransportOutcome := fun _ =>
  .response ⟨200, "", "OK", .ok (.obj [("access_token", .str "tok123")])⟩

/-- A token endpoint that answers 200 with an OAuth error object and no
`access_token`. -/
def oracleErrTok : Nat → TransportOutcome := fun _ =>
  .response ⟨200, "err", "OK",
    .ok (.obj [("error", .str "x"), ("error_description", .str "y")])⟩

/-- The client that `initClient cfgAuthCode defaultBaseURL goodTokenOracle`
constructs. -/
def testClient : Client :=
  ⟨defaultBaseURL, .str "tok123",
   [("Authorization", "Bearer tok123"), ("Content-Type", "application/json")]⟩

/-- `n` distinct opaque records. -/
def recsOf (n : Nat) : List Json := (List.range n).map (fun k => Json.int k)

/-- A server whose every page holds 37 records (fewer than the page size). -/
def oracle37 : Nat → TransportOutcome := fun _ =>
  .response ⟨200, "", "OK", .ok (.obj [("FirmUsers", .arr (recsOf 37)),
                                       ("Clients", .arr (recsOf 37))])⟩

/-- A server whose first page holds exactly 100 records and whose second page
is empty. -/
def oracle100 : Nat → TransportOutcome := fun i =>
  if i = 0 then .response ⟨200, "", "OK", .ok (.obj [("Clients", .arr (recsOf 100))])⟩
  else .response ⟨200, "", "OK", .ok (.obj [("Clients", .arr [])])⟩

/-- A server that answers every request with 404. -/
def oracle404 : Nat → TransportOutcome := fun _ =>
  .response ⟨404, "page gone", "Not Found", .error "Expecting value"⟩

/-- A server that answers 304 Not Modified with a JSON body of 3 records: a
non-2xx status that `raise_for_status` does not turn into an error. -/
def oracle304 : Nat → TransportOutcome := fun _ =>
  .response ⟨304, "", "Not Modified", .ok (.obj [("Clients", .arr (recsOf 3))])⟩

/-- A server whose first page holds exactly 100 records and whose second
response is a JSON object without the named result array. -/
def oracleNoField : Nat → TransportOutcome := fun i =>
  if i = 0 then .response ⟨200, "", "OK", .ok (.obj [("Clients", .arr (recsOf 100))])⟩
  else .response ⟨200, "", "OK", .ok (.obj [("Total", .int 100)])⟩

/-- A transport that fails with a connection error. -/
def oNet : Nat → TransportOutcome := fun _ => .netError "Connection refused"

/-- A server that answers 500 with a non-JSON body. -/
def oHttp500 : Nat → TransportOutcome := fun _ =>
  .response ⟨500, "boom", "Internal Server Error", .ok .null⟩

/-- A server that answers 200 with a body that is not valid JSON. -/
def oDecode : Nat → TransportOutcome := fun _ =>
  .response ⟨200, "not json", "OK", .error "Expecting value"⟩

/-- `runOp` unfolded to the shared loop. -/
theorem runOp_eq (op : ListOp) (c : Client) (oracle : Nat → TransportOutcome)
    (fuel : Nat) :
    runOp op c oracle fuel =
      searchLoop c oracle (opEndpoint op) (opArrayName op) (opPayload op)
        (opExtend op) 100 fuel 1 [] [] := by
  cases op <;> rfl


/-- Unfolding one iteration of the pagination loop. -/
theorem searchLoop_succ (c : Client) (oracle : Nat → TransportOutcome)
    (ep name : String) (pay : Nat → Nat → Except PyExn Json)
    (ext : List Json → List Json → Except PyExn (List Json)) (ps fuel p : Nat)
    (acc : List Json) (log : List HttpRequest) :
    searchLoop c oracle ep name pay ext ps (fuel + 1) p acc log =
      match pay ps p with
      | .error e => some (.error e, log, c)
      | .ok payload =>
        match searchStep c oracle ep name ext ps payload acc log.length with
        | .halt res => some (res, log ++ [mkSearchReq c ep payload], c)
        | .next acc2 =>
          searchLoop c oracle ep name pay ext ps fuel (p + 1) acc2
            (log ++ [mkSearchReq c ep payload]) := rfl

/-- A transport error at the consumed oracle index makes the loop body halt
with the transport-branch `TimeSolvAPIError`. -/
theorem searchStep_of_netError (c : Client) (oracle : Nat → TransportOutcome)
    (ep name : String) (ext : List Json → List Json → Except PyExn (List Json))
    (ps : Nat) (payload : Json) (acc : List Json) (idx : Nat) (e : String)
    (hc : oracle idx = .netError e) :
    searchStep c oracle ep name ext ps payload acc idx =
      .halt (.error (.timeSolvAPIError (transportErrorMsg (urljoin c.base_url ep) e))) := by
  simp only [searchStep, timesolvRequest, hc]

/-- A 4xx/5xx response at the consumed oracle index makes the loop body halt
with the HTTP-status-branch `TimeSolvAPIError`, whose message embeds the
response body. -/
theorem searchStep_of_httpError (c : Client) (oracle : Nat → TransportOutcome)
    (ep name : String) (ext : List Json → List Json → Except PyExn (List Json))
    (ps : Nat) (payload : Json) (acc : List Json) (idx : Nat) (r : HttpResponse)
    (hc : oracle idx = .response r) (h4 : 400 ≤ r.status) (h6 : r.status < 600) :
    searchStep c oracle ep name ext ps payload acc idx =
      .halt (.error (.timeSolvAPIError
        (httpErrorMsg (httpExnStr r (urljoin c.base_url ep)) r.text))) := by
  simp only [searchStep, timesolvRequest, hc, if_pos (And.intro h4 h6)]

/-- A non-error JSON-object response whose named array field is absent makes
the loop body break immediately, returning the accumulator unchanged. -/
theorem searchStep_of_missingField (c : Client) (oracle : Nat → TransportOutcome)
    (ep name : String) (ext : List Json → List Json → Except PyExn (List Json))
    (ps : Nat) (payload : Json) (acc : List Json) (idx : Nat) (r : HttpResponse)
    (fs : List (String × Json)) (hc : oracle idx = .response r)
    (hs : ¬(400 ≤ r.status ∧ r.status < 600)) (hb : r.jsonBody = .ok (.obj fs))
    (hmiss : pyDictGet fs name = none) :
    searchStep c oracle ep name ext ps payload acc idx = .halt (.ok acc) := by
  simp only [searchStep, timesolvRequest, hc, if_neg hs, hb, pyGet, hmiss,
    Option.getD, pyTruthy, List.isEmpty_nil, Bool.not_true]
  rfl

/-- A response whose body fails to decode as JSON makes the loop body halt
with the decode-branch `TimeSolvAPIError`. -/
theorem searchStep_of_decodeError (c : Client) (oracle : Nat → TransportOutcome)
    (ep name : String) (ext : List Json → List Json → Except PyExn (List Json))
    (ps : Nat) (payload : Json) (acc : List Json) (idx : Nat) (r : HttpResponse)
    (e : String) (hc : oracle idx = .response r)
    (hs : ¬(400 ≤ r.status ∧ r.status < 600)) (hb : r.jsonBody = .error e) :
    searchStep c oracle ep name ext ps payload acc idx =
      .halt (.error (.timeSolvAPIError (decodeErrorMsg (urljoin c.base_url ep) e))) := by
  simp only [searchStep, timesolvRequest, hc, if_neg hs, hb]

/-- A decoded body on which `.get` fails makes the loop body halt with that
exception. -/
theorem searchStep_of_badBody (c : Client) (oracle : Nat → TransportOutcome)
    (ep name : String) (ext : List Json → List Json → Except PyExn (List Json))
    (ps : Nat) (payload : Json) (acc : List Json) (idx : Nat) (r : HttpResponse)
    (j : Json) (e : PyExn) (hc : oracle idx = .response r)
    (hs : ¬(400 ≤ r.status ∧ r.status < 600)) (hb : r.jsonBody = .ok j)
    (hg : pyGet j name = .error e) :
    searchStep c oracle ep name ext ps payload acc idx = .halt (.error e) := by
  simp only [searchStep, timesolvRequest, hc, if_neg hs, hb, hg]

/-- A non-error JSON-object response whose named field holds the array `xs`
drives the loop body through the break / extend / page-length logic. -/
theorem searchStep_of_arrayField (c : Client) (oracle : Nat → TransportOutcome)
    (ep name : String) (ext : List Json → List Json → Except PyExn (List Json))
    (ps : Nat) (payload : Json) (acc : List Json) (idx : Nat) (r : HttpResponse)
    (fs : List (String × Json)) (xs : List Json) (hc : oracle idx = .response r)
    (hs : ¬(400 ≤ r.status ∧ r.status < 600)) (hb : r.jsonBody = .ok (.obj fs))
    (hv : pyDictGet fs name = some (.arr xs)) :
    searchStep c oracle ep name ext ps payload acc idx =
      if xs.isEmpty then .halt (.ok acc)
      else
        match ext acc xs with
        | .error e => .halt (.error e)
        | .ok acc2 => if xs.length < ps then .halt (.ok acc2) else .next acc2 := by
  simp only [searchStep, timesolvRequest, hc, if_neg hs, hb, pyGet, hv, Option.getD,
    pyTruthy]
  cases xs with
  | nil => rfl
  | cons y ys => simp [pyIter]

/-- On a benign oracle outcome (named field absent or an array), a loop body
iteration that ends the loop normally returns the accumulator extended by
exactly that page's records. -/
theorem searchStep_halt_ok (c : Client) (oracle : Nat → TransportOutcome)
    (ep name : String) (ps : Nat) (payload : Json) (acc l : List Json) (idx : Nat)
    (hwf : fieldIsArrayOrMissing name (oracle idx) = true)
    (h : searchStep c oracle ep name appendExtend ps payload acc idx =
      .halt (.ok l)) :
    l = acc ++ pageRecords name (oracle idx) := by
  cases hc : oracle idx with
  | netError e =>
    rw [searchStep_of_netError c oracle ep name appendExtend ps payload acc idx e hc]
      at h
    simp at h
  | response r =>
    by_cases hst : 400 ≤ r.status ∧ r.status < 600
    · rw [searchStep_of_httpError c oracle ep name appendExtend ps payload acc idx r hc
        hst.1 hst.2] at h
      simp at h
    · cases hb : r.jsonBody with
      | error e =>
        rw [searchStep_of_decodeError c oracle ep name appendExtend ps payload acc idx
          r e hc hst hb] at h
        simp at h
      | ok j =>
        cases j with
        | obj fs =>
          cases hv : pyDictGet fs name with
          | none =>
            rw [searchStep_of_missingField c oracle ep name appendExtend ps payload acc
              idx r fs hc hst hb hv] at h
            simp only [StepOut.halt.injEq, Except.ok.injEq] at h
            simp [pageRecords, hc, hb, hv, ← h]
          | some v =>
            cases v with
            | arr xs =>
              rw [searchStep_of_arrayField c oracle ep name appendExtend ps payload acc
                idx r fs xs hc hst hb hv] at h
              cases hxs : xs.isEmpty with
              | true =>
                rw [hxs] at h
                simp only [if_true, StepOut.halt.injEq, Except.ok.injEq] at h
                rw [List.isEmpty_iff] at hxs
                simp [pageRecords, hc, hb, hv, hxs, ← h]
              | false =>
                rw [hxs] at h
                simp only [Bool.false_eq_true, if_false, appendExtend] at h
                by_cases hlen : xs.length < ps
                · rw [if_pos hlen] at h
                  simp only [StepOut.halt.injEq, Except.ok.injEq] at h
                  simp [pageRecords, hc, hb, hv, ← h]
                · rw [if_neg hlen] at h
                  simp at h
            | null => simp [fieldIsArrayOrMissing, hc, hb, hv] at hwf
            | bool b => simp [fieldIsArrayOrMissing, hc, hb, hv] at hwf
            | int n => simp [fieldIsArrayOrMissing, hc, hb, hv] at hwf
            | str s => simp [fieldIsArrayOrMissing, hc, hb, hv] at hwf
            | obj fs2 => simp [fieldIsArrayOrMissing, hc, hb, hv] at hwf
        | null =>
          rw [searchStep_of_badBody c oracle ep name appendExtend ps payload acc idx r
            _ _ hc hst hb rfl] at h
          simp at h
        | bool b =>
          rw [searchStep_of_badBody c oracle ep name appendExtend ps payload acc idx r
            _ _ hc hst hb rfl] at h
          simp at h
        | int n =>
          rw [searchStep_of_badBody c oracle ep name appendExtend ps payload acc idx r
            _ _ hc hst hb rfl] at h
          simp at h
        | str s =>
          rw [searchStep_of_badBody c oracle ep name appendExtend ps payload acc idx r
            _ _ hc hst hb rfl] at h
          simp at h
        | arr ys =>
          rw [searchStep_of_badBody c oracle ep name appendExtend ps payload acc idx r
            _ _ hc hst hb rfl] at h
          simp at h

/-- On a benign oracle outcome, a loop body iteration that continues carries
the accumulator extended by exactly that page's records. -/
theorem searchStep_next_eq (c : Client) (oracle : Nat → TransportOutcome)
    (ep name : String) (ps : Nat) (payload : Json) (acc acc2 : List Json) (idx : Nat)
    (hwf : fieldIsArrayOrMissing name (oracle idx) = true)
    (h : searchStep c oracle ep name appendExtend ps payload acc idx = .next acc2) :
    acc2 = acc ++ pageRecords name (oracle idx) := by
  cases hc : oracle idx with
  | netError e =>
    rw [searchStep_of_netError c oracle ep name appendExtend ps payload acc idx e hc]
      at h
    simp at h
  | response r =>
    by_cases hst : 400 ≤ r.status ∧ r.status < 600
    · rw [searchStep_of_httpError c oracle ep name appendExtend ps payload acc idx r hc
        hst.1 hst.2] at h
      simp at h
    · cases hb : r.jsonBody with
      | error e =>
        rw [searchStep_of_decodeError c oracle ep name appendExtend ps payload acc idx
          r e hc hst hb] at h
        simp at h
      | ok j =>
        cases j with
        | obj fs =>
          cases hv : pyDictGet fs name with
          | none =>
            rw [searchStep_of_missingField c oracle ep name appendExtend ps payload acc
              idx r fs hc hst hb hv] at h
            simp at h
          | some v =>
            cases v with
            | arr xs =>
              rw [searchStep_of_arrayField c oracle ep name appendExtend ps payload acc
                idx r fs xs hc hst hb hv] at h
              cases hxs : xs.isEmpty with
              | true => rw [hxs] at h; simp at h
              | false =>
                rw [hxs] at h
                simp only [Bool.false_eq_true, if_false, appendExtend] at h
                by_cases hlen : xs.length < ps
                · rw [if_pos hlen] at h; simp at h
                · rw [if_neg hlen] at h
                  simp only [StepOut.next.injEq] at h
                  simp [pageRecords, hc, hb, hv, ← h]
            | null => simp [fieldIsArrayOrMissing, hc, hb, hv] at hwf
            | bool b => simp [fieldIsArrayOrMissing, hc, hb, hv] at hwf
            | int n => simp [fieldIsArrayOrMissing, hc, hb, hv] at hwf
            | str s => simp [fieldIsArrayOrMissing, hc, hb, hv] at hwf
            | obj fs2 => simp [fieldIsArrayOrMissing, hc, hb, hv] at hwf
        | null =>
          rw [searchStep_of_badBody c oracle ep name appendExtend ps payload acc idx r
            _ _ hc hst hb rfl] at h
          simp at h
        | bool b =>
          rw [searchStep_of_badBody c oracle ep name appendExtend ps payload acc idx r
            _ _ hc hst hb rfl] at h
          simp at h
        | int n =>
          rw [searchStep_of_badBody c oracle ep name appendExtend ps payload acc idx r
            _ _ hc hst hb rfl] at h
          simp at h
        | str s =>
          rw [searchStep_of_badBody c oracle ep name appendExtend ps payload acc idx r
            _ _ hc hst hb rfl] at h
          simp at h
        | arr ys =>
          rw [searchStep_of_badBody c oracle ep name appendExtend ps payload acc idx r
            _ _ hc hst hb rfl] at h
          simp at h

/-- The pagination loop never changes the client it was given. -/
theorem searchLoop_frame (c : Client) (oracle : Nat → TransportOutcome)
    (ep name : String) (pay : Nat → Nat → Except PyExn Json)
    (ext : List Json → List Json → Except PyExn (List Json)) (ps : Nat) :
    ∀ fuel p acc log res log' c',
      searchLoop c oracle ep name pay ext ps fuel p acc log = some (res, log', c') →
      c' = c := by
  intro fuel
  induction fuel with
  | zero => intro p acc log res log' c' h; simp [searchLoop] at h
  | succ n ih =>
    intro p acc log res log' c' h
    rw [searchLoop_succ] at h
    split at h
    · simp only [Option.some.injEq, Prod.mk.injEq] at h
      exact h.2.2.symm
    · split at h
      · simp only [Option.some.injEq, Prod.mk.injEq] at h
        exact h.2.2.symm
      · exact ih _ _ _ _ _ _ h

/-- The requests issued by the pagination loop extend the incoming log by one
`mkSearchReq` per iteration, built from the payloads of the consecutive page
numbers starting at the incoming one. -/
theorem searchLoop_log (c : Client) (oracle : Nat → TransportOutcome)
    (ep name : String) (pay : Nat → Nat → Except PyExn Json)
    (ext : List Json → List Json → Except PyExn (List Json)) (ps : Nat) :
    ∀ fuel p acc log res log' c',
      searchLoop c oracle ep name pay ext ps fuel p acc log = some (res, log', c') →
      ∃ tail, log' = log ++ tail ∧
        ∀ t < tail.length, ∃ payload, pay ps (p + t) = .ok payload ∧
          tail[t]? = some (mkSearchReq c ep payload) := by
  intro fuel
  induction fuel with
  | zero => intro p acc log res log' c' h; simp [searchLoop] at h
  | succ n ih =>
    intro p acc log res log' c' h
    rw [searchLoop_succ] at h
    split at h
    · simp only [Option.some.injEq, Prod.mk.injEq] at h
      refine ⟨[], by simp [h.2.1.symm], by simp⟩
    · rename_i payload hpay
      split at h
      · rename_i res0 hstep
        simp only [Option.some.injEq, Prod.mk.injEq] at h
        refine ⟨[mkSearchReq c ep payload], h.2.1.symm, ?_⟩
        intro t ht
        have ht0 : t = 0 := by simpa [Nat.lt_one_iff] using ht
        subst ht0
        exact ⟨payload, by simpa using hpay, by simp⟩
      · rename_i acc2 hstep
        obtain ⟨tail, htail, hreq⟩ := ih _ _ _ _ _ _ h
        refine ⟨mkSearchReq c ep payload :: tail, by simpa using htail, ?_⟩
        intro t ht
        cases t with
        | zero => exact ⟨payload, by simpa using hpay, by simp⟩
        | succ s =>
          obtain ⟨pl, hpl, hget⟩ := hreq s (by simpa using ht)
          refine ⟨pl, ?_, by simpa using hget⟩
          rw [← hpl]
          congr 1
          omega

/-- With the append accumulation step, a loop run that returns normally
returns the incoming accumulator followed by the concatenation, in request
order, of the records of every page consumed from the oracle, provided every
consumed outcome is benign. -/
theorem searchLoop_concat (c : Client) (oracle : Nat → TransportOutcome)
    (ep name : String) (pay : Nat → Nat → Except PyExn Json) (ps : Nat) :
    ∀ fuel p acc log l log' c',
      searchLoop c oracle ep name pay appendExtend ps fuel p acc log =
        some (.ok l, log', c') →
      (∀ i, log.length ≤ i → i < log'.length →
        fieldIsArrayOrMissing name (oracle i) = true) →
      l = acc ++ (List.range' log.length (log'.length - log.length)).flatMap
        (fun i => pageRecords name (oracle i)) := by
  intro fuel
  induction fuel with
  | zero => intro p acc log l log' c' h hwf; simp [searchLoop] at h
  | succ n ih =>
    intro p acc log l log' c' h hwf
    rw [searchLoop_succ] at h
    split at h
    · simp at h
    · rename_i payload hpay
      split at h
      · rename_i res0 hstep
        simp only [Option.some.injEq, Prod.mk.injEq] at h
        obtain ⟨hres, hlog, -⟩ := h
        have hlen : log'.length = log.length + 1 := by rw [← hlog]; simp
        have hone : log'.length - log.length = 1 := by omega
        rw [hres] at hstep
        have hval := searchStep_halt_ok c oracle ep name ps payload acc l log.length
          (hwf log.length (le_refl _) (by omega)) hstep
        rw [hval, hone, List.range'_one]
        simp
      · rename_i acc2 hstep
        obtain ⟨tail, htail, -⟩ := searchLoop_log c oracle ep name pay appendExtend ps
          n (p + 1) acc2 (log ++ [mkSearchReq c ep payload]) _ _ _ h
        have hlen : log.length + 1 + tail.length = log'.length := by
          rw [htail]; simp; omega
        have hwfrec : ∀ i, (log ++ [mkSearchReq c ep payload]).length ≤ i →
            i < log'.length → fieldIsArrayOrMissing name (oracle i) = true := by
          intro i hi1 hi2
          refine hwf i ?_ hi2
          simp only [List.length_append, List.length_cons, List.length_nil] at hi1
          omega
        have hrec := ih (p + 1) acc2 (log ++ [mkSearchReq c ep payload]) l log' c' h
          hwfrec
        simp only [List.length_append, List.length_cons, List.length_nil] at hrec
        have hacc2 := searchStep_next_eq c oracle ep name ps payload acc acc2
          log.length (hwf log.length (le_refl _) (by omega)) hstep
        rw [hrec, hacc2, List.append_assoc]
        congr 1
        have hsplit : log'.length - log.length = (log'.length - (log.length + 1)) + 1 := by
          omega
        rw [hsplit, List.range'_succ, List.flatMap_cons]

/-- If some consumed oracle index answers with a 4xx/5xx response, the loop
run ends with the HTTP-status `TimeSolvAPIError` built from that response,
and that request is the last one issued. -/
theorem searchLoop_httpfail (c : Client) (oracle : Nat → TransportOutcome)
    (ep name : String) (pay : Nat → Nat → Except PyExn Json)
    (ext : List Json → List Json → Except PyExn (List Json)) (ps : Nat) :
    ∀ fuel p acc log res log' c' i r,
      searchLoop c oracle ep name pay ext ps fuel p acc log = some (res, log', c') →
      log.length ≤ i → i < log'.length →
      oracle i = .response r → 400 ≤ r.status → r.status < 600 →
      res = .error (.timeSolvAPIError
        (httpErrorMsg (httpExnStr r (urljoin c.base_url ep)) r.text)) ∧
      log'.length = i + 1 := by
  intro fuel
  induction fuel with
  | zero => intro p acc log res log' c' i r h; simp [searchLoop] at h
  | succ n ih =>
    intro p acc log res log' c' i r h hle hlt hor h4 h6
    rw [searchLoop_succ] at h
    split at h
    · simp only [Option.some.injEq, Prod.mk.injEq] at h
      rw [← h.2.1] at hlt
      omega
    · rename_i payload hpay
      by_cases hi : i = log.length
      · subst hi
        split at h
        · rename_i res0 hstep
          rw [searchStep_of_httpError c oracle ep name ext ps payload acc log.length
            r hor h4 h6] at hstep
          simp only [Option.some.injEq, Prod.mk.injEq] at h
          injection hstep with hres0
          refine ⟨by rw [← h.1, ← hres0], ?_⟩
          rw [← h.2.1]
          simp
        · rename_i acc2 hstep
          rw [searchStep_of_httpError c oracle ep name ext ps payload acc log.length
            r hor h4 h6] at hstep
          simp at hstep
      · have hgt : log.length + 1 ≤ i := by omega
        split at h
        · rename_i res0 hstep
          simp only [Option.some.injEq, Prod.mk.injEq] at h
          rw [← h.2.1] at hlt
          simp only [List.length_append, List.length_cons, List.length_nil] at hlt
          omega
        · rename_i acc2 hstep
          refine ih (p + 1) acc2 (log ++ [mkSearchReq c ep payload]) res log' c' i r h
            ?_ hlt hor h4 h6
          simp only [List.length_append, List.length_cons, List.length_nil]
          omega

/-- If some consumed oracle index answers with a non-error JSON object that
lacks the named array field, the loop run returns normally and that request
is the last one issued. -/
theorem searchLoop_missing (c : Client) (oracle : Nat → TransportOutcome)
    (ep name : String) (pay : Nat → Nat → Except PyExn Json)
    (ext : List Json → List Json → Except PyExn (List Json)) (ps : Nat) :
    ∀ fuel p acc log res log' c' i r fs,
      searchLoop c oracle ep name pay ext ps fuel p acc log = some (res, log', c') →
      log.length ≤ i → i < log'.length →
      oracle i = .response r → ¬(400 ≤ r.status ∧ r.status < 600) →
      r.jsonBody = .ok (.obj fs) → pyDictGet fs name = none →
      (∃ l, res = .ok l) ∧ log'.length = i + 1 := by
  intro fuel
  induction fuel with
  | zero => intro p acc log res log' c' i r fs h; simp [searchLoop] at h
  | succ n ih =>
    intro p acc log res log' c' i r fs h hle hlt hor hst hb hmiss
    rw [searchLoop_succ] at h
    split at h
    · simp only [Option.some.injEq, Prod.mk.injEq] at h
      rw [← h.2.1] at hlt
      omega
    · rename_i payload hpay
      by_cases hi : i = log.length
      · subst hi
        split at h
        · rename_i res0 hstep
          rw [searchStep_of_missingField c oracle ep name ext ps payload acc
            log.length r fs hor hst hb hmiss] at hstep
          simp only [Option.some.injEq, Prod.mk.injEq] at h
          injection hstep with hres0
          refine ⟨⟨acc, by rw [← h.1, ← hres0]⟩, ?_⟩
          rw [← h.2.1]
          simp
        · rename_i acc2 hstep
          rw [searchStep_of_missingField c oracle ep name ext ps payload acc
            log.length r fs hor hst hb hmiss] at hstep
          simp at hstep
      · have hgt : log.length + 1 ≤ i := by omega
        split at h
        · rename_i res0 hstep
          simp only [Option.some.injEq, Prod.mk.injEq] at h
          rw [← h.2.1] at hlt
          simp only [List.length_append, List.length_cons, List.length_nil] at hlt
          omega
        · rename_i acc2 hstep
          refine ih (p + 1) acc2 (log ++ [mkSearchReq c ep payload]) res log' c' i r
            fs h ?_ hlt hor hst hb hmiss
          simp only [List.length_append, List.length_cons, List.length_nil]
          omega

/-- The HTTP-status message format starts with an H. -/
theorem httpErrorMsg_head (a b : String) : (httpErrorMsg a b).data.head? = some 'H' := rfl

/-- The transport message format starts with an E. -/
theorem transportErrorMsg_head (a b : String) :
    (transportErrorMsg a b).data.head? = some 'E' := rfl

/-- The decode message format starts with an E. -/
theorem decodeErrorMsg_head (a b : String) :
    (decodeErrorMsg a b).data.head? = some 'E' := rfl

/-- Character 6 of the transport message format is the m of making. -/
theorem transportErrorMsg_six (a b : String) :
    (transportErrorMsg a b).data[6]? = some 'm' := rfl

/-- Character 6 of the decode message format is the p of parsing. -/
theorem decodeErrorMsg_six (a b : String) :
    (decodeErrorMsg a b).data[6]? = some 'p' := rfl

/-- No HTTP-status message coincides with a transport message. -/
theorem httpErrorMsg_ne_transport (a b u v : String) :
    httpErrorMsg a b ≠ transportErrorMsg u v := by
  intro heq
  have h1 : (httpErrorMsg a b).data.head? = (transportErrorMsg u v).data.head? := by
    rw [heq]
  rw [httpErrorMsg_head, transportErrorMsg_head] at h1
  simp at h1

/-- No HTTP-status message coincides with a decode message. -/
theorem httpErrorMsg_ne_decode (a b u v : String) :
    httpErrorMsg a b ≠ decodeErrorMsg u v := by
  intro heq
  have h1 : (httpErrorMsg a b).data.head? = (decodeErrorMsg u v).data.head? := by
    rw [heq]
  rw [httpErrorMsg_head, decodeErrorMsg_head] at h1
  simp at h1

/-- No transport message coincides with a decode message. -/
theorem transportErrorMsg_ne_decode (a b u v : String) :
    transportErrorMsg a b ≠ decodeErrorMsg u v := by
  intro heq
  have h1 : (transportErrorMsg a b).data[6]? = (decodeErrorMsg u v).data[6]? := by
    rw [heq]
  rw [transportErrorMsg_six, decodeErrorMsg_six] at h1
  simp at h1

/-- C10: every call to get_firm_users, get_timecards or get_taskcodes fails
with a NameError while building the first page's payload — before any HTTP
request is issued — because the payload references the undefined names
`false` (get_firm_users, get_taskcodes) and `true` (get_timecards); the body
of get_firm_users additionally references the undefined name `firm_list` in
its accumulation statement; consequently none of these three operations can
ever return a result, for any client, transport behaviour and number of loop
iterations. -/
theorem spec_C10 (c : Client) (oracle : Nat → TransportOutcome) (fuel : Nat)
    (fuid : Int) (sd ed : String) :
    get_firm_users c oracle (fuel + 1) =
      some (.error (.nameError "false"), [], c) ∧
    get_timecards c fuid sd ed oracle (fuel + 1) =
      some (.error (.nameError "true"), [], c) ∧
    get_taskcodes c oracle (fuel + 1) =
      some (.error (.nameError "false"), [], c) ∧
    (∀ acc xs, firmUsersExtend acc xs = .error (.nameError "firm_list")) ∧
    (∀ fuel2 l log c2, get_firm_users c oracle fuel2 ≠ some (.ok l, log, c2)) ∧
    (∀ fuel2 l log c2,
      get_timecards c fuid sd ed oracle fuel2 ≠ some (.ok l, log, c2)) ∧
    (∀ fuel2 l log c2, get_taskcodes c oracle fuel2 ≠ some (.ok l, log, c2)) := by
  refine ⟨rfl, rfl, rfl, fun acc xs => rfl, ?_, ?_, ?_⟩ <;>
    intro fuel2 l log c2 hcontra <;>
    cases fuel2 <;>
    simp [get_firm_users, get_timecards, get_taskcodes, searchLoop,
      firmUsersPayload, timecardsPayload, taskcodesPayload] at hcontra

/-- C9: no list operation modifies the client state: whether the call returns
or fails, the base URL, the access token and the headers after the call are
the ones from before the call. -/
theorem spec_C9 (op : ListOp) (c : Client) (oracle : Nat → TransportOutcome)
    (fuel : Nat) (res : Except PyExn (List Json)) (log : List HttpRequest)
    (c' : Client) (h : runOp op c oracle fuel = some (res, log, c')) :
    c'.base_url = c.base_url ∧ c'.access_token = c.access_token ∧
      c'.headers = c.headers := by
  rw [runOp_eq] at h
  have := searchLoop_frame c oracle (opEndpoint op) (opArrayName op) (opPayload op)
    (opExtend op) 100 fuel 1 [] [] res log c' h
  rw [this]
  exact ⟨rfl, rfl, rfl⟩

/-- C9 witness: a concrete `get_clients` call leaves the client unchanged. -/
theorem spec_C9_witness :
    testClient.base_url = testClient.base_url ∧
    testClient.access_token = testClient.access_token ∧
    testClient.headers = testClient.headers :=
  spec_C9 .clients testClient oracle37 5 (.ok (recsOf 37))
    [mkSearchReq testClient "clientSearch" (clientsPayload 100 1)] testClient rfl

/-- C1 (code bug evaluation): with a server whose page 1 holds 37 records,
`get_clients` behaves as the pagination contract says — it returns exactly
those 37 records and issues exactly 1 request, and on the 100-record-then-
empty server it returns the 100 records and issues exactly 2 requests — but
`get_firm_users` on the very same server raises `NameError` for the
undefined name `false` while building the first payload, issuing 0 requests,
instead of returning the 37 records. -/
theorem spec_C1_eval :
    get_firm_users testClient oracle37 5 =
      some (.error (.nameError "false"), [], testClient) ∧
    get_clients testClient oracle37 5 =
      some (.ok (recsOf 37),
        [mkSearchReq testClient "clientSearch" (clientsPayload 100 1)],
        testClient) ∧
    get_clients testClient oracle100 5 =
      some (.ok (recsOf 100),
        [mkSearchReq testClient "clientSearch" (clientsPayload 100 1),
         mkSearchReq testClient "clientSearch" (clientsPayload 100 2)],
        testClient) :=
  ⟨rfl, rfl, rfl⟩

/-- Shared concatenation property of the five operations: a normal return is
the concatenation of the consumed pages' records. -/
theorem runOp_concat (op : ListOp) (c : Client) (oracle : Nat → TransportOutcome)
    (fuel : Nat) (l : List Json) (log : List HttpRequest) (c' : Client)
    (h : runOp op c oracle fuel = some (.ok l, log, c'))
    (hwf : ∀ i < log.length,
      fieldIsArrayOrMissing (opArrayName op) (oracle i) = true) :
    l = (List.range log.length).flatMap
      (fun i => pageRecords (opArrayName op) (oracle i)) := by
  rw [runOp_eq] at h
  rw [List.range_eq_range']
  cases op with
  | firmUsers =>
    cases fuel with
    | zero => simp [searchLoop] at h
    | succ n =>
      rw [searchLoop_succ] at h
      simp [opPayload, firmUsersPayload] at h
  | timecards fuid sd ed =>
    simp only [opEndpoint, opArrayName, opPayload, opExtend] at h hwf ⊢
    have hcc := searchLoop_concat c oracle "timecardSearch" "TimeCards"
      (timecardsPayload fuid sd ed) 100 fuel 1 [] [] l log c' h
      (fun i _ hi => hwf i hi)
    simpa using hcc
  | taskcodes =>
    simp only [opEndpoint, opArrayName, opPayload, opExtend] at h hwf ⊢
    have hcc := searchLoop_concat c oracle "taskcodeSearch" "TaskCodes"
      taskcodesPayload 100 fuel 1 [] [] l log c' h (fun i _ hi => hwf i hi)
    simpa using hcc
  | abbreviations =>
    simp only [opEndpoint, opArrayName, opPayload, opExtend] at h hwf ⊢
    have hcc := searchLoop_concat c oracle "abbreviationSearch" "Abbreviations"
      (fun ps pn => .ok (abbreviationsPayload ps pn)) 100 fuel 1 [] [] l log c' h
      (fun i _ hi => hwf i hi)
    simpa using hcc
  | clients =>
    simp only [opEndpoint, opArrayName, opPayload, opExtend] at h hwf ⊢
    have hcc := searchLoop_concat c oracle "clientSearch" "Clients"
      (fun ps pn => .ok (clientsPayload ps pn)) 100 fuel 1 [] [] l log c' h
      (fun i _ hi => hwf i hi)
    simpa using hcc

/-- C2: whenever a list operation returns normally, the returned sequence is
exactly the concatenation of the named result arrays of the consumed pages,
in request order with in-page order preserved (stated for transports whose
named field, when present, is an array). -/
theorem spec_C2 (op : ListOp) (c : Client) (oracle : Nat → TransportOutcome)
    (fuel : Nat) (l : List Json) (log : List HttpRequest) (c' : Client)
    (h : runOp op c oracle fuel = some (.ok l, log, c'))
    (hwf : ∀ i < log.length,
      fieldIsArrayOrMissing (opArrayName op) (oracle i) = true) :
    l = (List.range log.length).flatMap
      (fun i => pageRecords (opArrayName op) (oracle i)) :=
  runOp_concat op c oracle fuel l log c' h hwf

/-- C2 witness: on the server whose page 1 holds 100 records and page 2 is
empty, `get_clients` returns exactly the concatenation of the two pages. -/
theorem spec_C2_witness :
    recsOf 100 = (List.range
      ([mkSearchReq testClient "clientSearch" (clientsPayload 100 1),
        mkSearchReq testClient "clientSearch" (clientsPayload 100 2)].length)).flatMap
      (fun i => pageRecords "Clients" (oracle100 i)) :=
  spec_C2 .clients testClient oracle100 5 (recsOf 100)
    [mkSearchReq testClient "clientSearch" (clientsPayload 100 1),
     mkSearchReq testClient "clientSearch" (clientsPayload 100 2)] testClient rfl
    (by decide)

/-- C8: if the response to a consumed page request is a non-error JSON object
in which the named result array is missing, the page counts as empty: the
operation stops requesting (that request is the last one) and returns
exactly the records accumulated from the earlier pages. -/
theorem spec_C8 (op : ListOp) (c : Client) (oracle : Nat → TransportOutcome)
    (fuel : Nat) (res : Except PyExn (List Json)) (log : List HttpRequest)
    (c' : Client) (i : Nat) (r : HttpResponse) (fs : List (String × Json))
    (h : runOp op c oracle fuel = some (res, log, c'))
    (hi : i < log.length)
    (hor : oracle i = .response r)
    (hst : ¬(400 ≤ r.status ∧ r.status < 600))
    (hb : r.jsonBody = .ok (.obj fs))
    (hmiss : pyDictGet fs (opArrayName op) = none)
    (hwf : ∀ j < i, fieldIsArrayOrMissing (opArrayName op) (oracle j) = true) :
    log.length = i + 1 ∧
    res = .ok ((List.range i).flatMap
      (fun j => pageRecords (opArrayName op) (oracle j))) := by
  rw [runOp_eq] at h
  obtain ⟨⟨l, hres⟩, hlen⟩ := searchLoop_missing c oracle (opEndpoint op)
    (opArrayName op) (opPayload op) (opExtend op) 100 fuel 1 [] [] res log c' i r fs
    h (by simp) hi hor hst hb hmiss
  subst hres
  refine ⟨hlen, ?_⟩
  have hwfall : ∀ j < log.length,
      fieldIsArrayOrMissing (opArrayName op) (oracle j) = true := by
    intro j hj
    rcases Nat.lt_or_ge j i with hji | hji
    · exact hwf j hji
    · have hj_eq : j = i := by omega
      subst hj_eq
      simp [fieldIsArrayOrMissing, hor, hb, hmiss]
  have hcc := runOp_concat op c oracle fuel l log c' (by rw [runOp_eq]; exact h) hwfall
  rw [hcc, hlen, List.range_succ, List.flatMap_append]
  simp [pageRecords, hor, hb, hmiss]

/-- C8 witness: page 1 full, page 2 an object without the `Clients` field:
`get_clients` stops after the second request and returns page 1's records. -/
theorem spec_C8_witness :
    ([mkSearchReq testClient "clientSearch" (clientsPayload 100 1),
      mkSearchReq testClient "clientSearch" (clientsPayload 100 2)].length = 1 + 1) ∧
    (Except.ok (recsOf 100) : Except PyExn (List Json)) =
      .ok ((List.range 1).flatMap (fun j => pageRecords "Clients" (oracleNoField j))) :=
  spec_C8 .clients testClient oracleNoField 5 (.ok (recsOf 100))
    [mkSearchReq testClient "clientSearch" (clientsPayload 100 1),
     mkSearchReq testClient "clientSearch" (clientsPayload 100 2)] testClient 1
    ⟨200, "", "OK", .ok (.obj [("Total", .int 100)])⟩ [("Total", .int 100)] rfl
    (by decide) rfl (by decide) rfl rfl (by decide)

/-- C5 counterexample: a non-2xx response does not necessarily fail the
operation. A 304 Not Modified page with a JSON body of 3 records is a non-2xx
response, yet `get_clients` raises nothing, issues exactly this one request,
and returns the 3 records — contradicting the claim that any non-2xx page
response yields an HTTPStatusError with no records. -/
theorem spec_C5_counterexample :
    get_clients testClient oracle304 5 =
      some (.ok (recsOf 3),
        [mkSearchReq testClient "clientSearch" (clientsPayload 100 1)],
        testClient) ∧
    ¬(200 ≤ 304 ∧ 304 < 300) :=
  ⟨rfl, by decide⟩

/-- C5 (amended to 4xx/5xx): if the response consumed by some page request
has a 4xx or 5xx status, the operation fails with the single
`TimeSolvAPIError` raised in the HTTP-status branch, whose message embeds the
response body; the caller receives no records and the failing request is the
last one issued. -/
theorem spec_C5_amended (op : ListOp) (c : Client) (oracle : Nat → TransportOutcome)
    (fuel : Nat) (res : Except PyExn (List Json)) (log : List HttpRequest)
    (c' : Client) (i : Nat) (r : HttpResponse)
    (h : runOp op c oracle fuel = some (res, log, c'))
    (hi : i < log.length) (hor : oracle i = .response r)
    (h4 : 400 ≤ r.status) (h6 : r.status < 600) :
    res = .error (.timeSolvAPIError
      (httpErrorMsg (httpExnStr r (urljoin c.base_url (opEndpoint op))) r.text)) ∧
    (∃ pre, httpErrorMsg (httpExnStr r (urljoin c.base_url (opEndpoint op))) r.text =
      pre ++ r.text) ∧
    log.length = i + 1 := by
  rw [runOp_eq] at h
  obtain ⟨hres, hlen⟩ := searchLoop_httpfail c oracle (opEndpoint op)
    (opArrayName op) (opPayload op) (opExtend op) 100 fuel 1 [] [] res log c' i r h
    (by simp) hi hor h4 h6
  exact ⟨hres,
    ⟨"HTTP error occurred: " ++ httpExnStr r (urljoin c.base_url (opEndpoint op)) ++
      " - Response: ", rfl⟩, hlen⟩

/-- C5 witness: a 404 on page 1 of `get_clients` ends the call with the
HTTP-status error embedding the body, after exactly one request. -/
theorem spec_C5_amended_witness :
    (Except.error (.timeSolvAPIError (httpErrorMsg
        (httpExnStr ⟨404, "page gone", "Not Found", .error "Expecting value"⟩
          (urljoin testClient.base_url "clientSearch")) "page gone"))
      : Except PyExn (List Json)) =
      .error (.timeSolvAPIError (httpErrorMsg
        (httpExnStr ⟨404, "page gone", "Not Found", .error "Expecting value"⟩
          (urljoin testClient.base_url (opEndpoint .clients))) "page gone")) ∧
    (∃ pre, httpErrorMsg
        (httpExnStr ⟨404, "page gone", "Not Found", .error "Expecting value"⟩
          (urljoin testClient.base_url (opEndpoint .clients))) "page gone" =
      pre ++ "page gone") ∧
    ([mkSearchReq testClient "clientSearch" (clientsPayload 100 1)].length = 0 + 1) :=
  spec_C5_amended .clients testClient oracle404 5
    (.error (.timeSolvAPIError (httpErrorMsg
      (httpExnStr ⟨404, "page gone", "Not Found", .error "Expecting value"⟩
        (urljoin testClient.base_url "clientSearch")) "page gone")))
    [mkSearchReq testClient "clientSearch" (clientsPayload 100 1)] testClient 0
    ⟨404, "page gone", "Not Found", .error "Expecting value"⟩ rfl (by decide) rfl
    (by decide) (by decide)

/-- C3 counterexample: the credential checked by the code is `auth_code`, not
`authorization_code`. The mapping `cfgAuthCode` has no key
`authorization_code` (so by the claim construction should fail with a
configuration error), yet construction succeeds and returns a client. -/
theorem spec_C3_counterexample :
    pyDictGet (lowerKeys cfgAuthCode) "authorization_code" = none ∧
    (initClient cfgAuthCode defaultBaseURL goodTokenOracle).1 = .ok testClient :=
  ⟨rfl, rfl⟩

/-- C3 (amended): the four required credentials are `client_id`,
`client_secret`, `auth_code` and `redirect_uri` (keys compared
case-insensitively, values required truthy). If any of them is missing,
construction fails with `TimeSolvAPIError("Missing required authentication
parameters.")` and no HTTP request is issued. -/
theorem spec_C3_amended (cfg : List (String × Json)) (base : String)
    (oracle : Nat → TransportOutcome) (h : hasAllCreds cfg = false) :
    initClient cfg base oracle =
      (.error (.timeSolvAPIError "Missing required authentication parameters."),
       []) := by
  unfold hasAllCreds at h
  simp [initClient, getAccessToken, h]

/-- C3 witness: a mapping missing `auth_code` is rejected without any
request. -/
theorem spec_C3_amended_witness :
    hasAllCreds cfgMissing = false ∧
    initClient cfgMissing defaultBaseURL goodTokenOracle =
      (.error (.timeSolvAPIError "Missing required authentication parameters."),
       []) :=
  ⟨rfl, spec_C3_amended cfgMissing defaultBaseURL goodTokenOracle rfl⟩

/-- C4 counterexample: a 200 token response `{error: x, error_description: y}`
makes construction fail with `KeyError("access_token")` — a `KeyError`, not
the module's `TimeSolvAPIError` — and nothing in that error contains the
error_description text y. -/
theorem spec_C4_counterexample :
    (initClient cfgAuthCode defaultBaseURL oracleErrTok).1 =
      .error (.keyError "access_token") ∧
    (∀ s, (PyExn.keyError "access_token") ≠ .timeSolvAPIError s) ∧
    strContains "access_token" "y" = false :=
  ⟨rfl, fun s => by simp, rfl⟩

/-- C4 (amended): for every complete credential mapping, when the token
endpoint answers without an HTTP error and with a JSON object lacking
`access_token`, construction fails with `KeyError("access_token")` after the
single token request; the error_description is not propagated. -/
theorem spec_C4_amended (cfg : List (String × Json)) (base : String)
    (oracle : Nat → TransportOutcome) (r : HttpResponse)
    (fs : List (String × Json))
    (hcreds : hasAllCreds cfg = true)
    (hor : oracle 0 = .response r)
    (hst : ¬(400 ≤ r.status ∧ r.status < 600))
    (hb : r.jsonBody = .ok (.obj fs))
    (hmiss : pyDictGet fs "access_token" = none) :
    (initClient cfg base oracle).1 = .error (.keyError "access_token") ∧
    (initClient cfg base oracle).2.length = 1 := by
  unfold hasAllCreds at hcreds
  simp [initClient, getAccessToken, timesolvRequest, hcreds, hor, if_neg hst, hb,
    pySubscript, hmiss]

/-- C4 witness: the amended behaviour at the concrete OAuth error response. -/
theorem spec_C4_amended_witness :
    (initClient cfgAuthCode defaultBaseURL oracleErrTok).1 =
      .error (.keyError "access_token") ∧
    (initClient cfgAuthCode defaultBaseURL oracleErrTok).2.length = 1 :=
  spec_C4_amended cfgAuthCode defaultBaseURL oracleErrTok
    ⟨200, "err", "OK",
      .ok (.obj [("error", .str "x"), ("error_description", .str "y")])⟩
    [("error", .str "x"), ("error_description", .str "y")] rfl rfl (by decide) rfl
    rfl

/-- C6 counterexample: the three request failure classes are not distinct
catchable kinds. An HTTP-status failure, a transport failure and a
response-decoding failure all reach the caller as values of the one exception
class `TimeSolvAPIError`, so an `except` clause keyed on the exception class
cannot tell which of the three occurred: here are three concrete `_request`
runs, one per failure class, whose escaping exceptions have pairwise equal
Python classes (while being three different values). -/
theorem spec_C6_counterexample :
    (timesolvRequest oHttp500 0 defaultBaseURL "POST" "clientSearch" none none
      none).1 = .error (.timeSolvAPIError (httpErrorMsg
        (httpExnStr ⟨500, "boom", "Internal Server Error", .ok .null⟩
          (urljoin defaultBaseURL "clientSearch")) "boom")) ∧
    (timesolvRequest oNet 0 defaultBaseURL "POST" "clientSearch" none none
      none).1 = .error (.timeSolvAPIError (transportErrorMsg
        (urljoin defaultBaseURL "clientSearch") "Connection refused")) ∧
    (timesolvRequest oDecode 0 defaultBaseURL "POST" "clientSearch" none none
      none).1 = .error (.timeSolvAPIError (decodeErrorMsg
        (urljoin defaultBaseURL "clientSearch") "Expecting value")) ∧
    PyExn.cls (.timeSolvAPIError (httpErrorMsg
      (httpExnStr ⟨500, "boom", "Internal Server Error", .ok .null⟩
        (urljoin defaultBaseURL "clientSearch")) "boom")) =
      PyExn.cls (.timeSolvAPIError (transportErrorMsg
        (urljoin defaultBaseURL "clientSearch") "Connection refused")) ∧
    PyExn.cls (.timeSolvAPIError (transportErrorMsg
      (urljoin defaultBaseURL "clientSearch") "Connection refused")) =
      PyExn.cls (.timeSolvAPIError (decodeErrorMsg
        (urljoin defaultBaseURL "clientSearch") "Expecting value")) ∧
    (.timeSolvAPIError (httpErrorMsg
      (httpExnStr ⟨500, "boom", "Internal Server Error", .ok .null⟩
        (urljoin defaultBaseURL "clientSearch")) "boom") : PyExn) ≠
      .timeSolvAPIError (transportErrorMsg
        (urljoin defaultBaseURL "clientSearch") "Connection refused") :=
  ⟨rfl, rfl, rfl, rfl, rfl, by decide⟩

/-- C6 (amended): `_request` surfaces its three failure classes — HTTP status
error (4xx/5xx), transport error, and response-decoding error — all as the
single exception class `TimeSolvAPIError`; what distinguishes them is only
the message: the three message formats are pairwise disjoint, and each
message carries its context (the HTTPError text and the response body; the
URL and the underlying cause for the other two). -/
theorem spec_C6_amended (oracle : Nat → TransportOutcome) (idx : Nat)
    (base ep : String) (hd : Option (List (String × String))) (jp fd : Option Json)
    (r : HttpResponse) (e : String) :
    ((oracle idx = .netError e →
      (timesolvRequest oracle idx base "POST" ep hd jp fd).1 =
        .error (.timeSolvAPIError (transportErrorMsg (urljoin base ep) e))) ∧
     (oracle idx = .response r → 400 ≤ r.status → r.status < 600 →
      (timesolvRequest oracle idx base "POST" ep hd jp fd).1 =
        .error (.timeSolvAPIError
          (httpErrorMsg (httpExnStr r (urljoin base ep)) r.text))) ∧
     (oracle idx = .response r → ¬(400 ≤ r.status ∧ r.status < 600) →
      r.jsonBody = .error e →
      (timesolvRequest oracle idx base "POST" ep hd jp fd).1 =
        .error (.timeSolvAPIError (decodeErrorMsg (urljoin base ep) e)))) ∧
    (∀ m, PyExn.cls (.timeSolvAPIError m) = "TimeSolvAPIError") ∧
    (∀ a b u v, httpErrorMsg a b ≠ transportErrorMsg u v) ∧
    (∀ a b u v, httpErrorMsg a b ≠ decodeErrorMsg u v) ∧
    (∀ a b u v, transportErrorMsg a b ≠ decodeErrorMsg u v) ∧
    (∀ a b, ∃ pre mid, httpErrorMsg a b = (pre ++ a) ++ (mid ++ b)) ∧
    (∀ u v, ∃ pre mid, transportErrorMsg u v = (pre ++ u) ++ (mid ++ v)) ∧
    (∀ u v, ∃ pre mid, decodeErrorMsg u v = (pre ++ u) ++ (mid ++ v)) := by
  refine ⟨⟨?_, ?_, ?_⟩, fun m => rfl, httpErrorMsg_ne_transport,
    httpErrorMsg_ne_decode, transportErrorMsg_ne_decode,
    fun a b => ⟨"HTTP error occurred: ", " - Response: ", ?_⟩,
    fun u v => ⟨"Error making request to ", ": ", ?_⟩,
    fun u v => ⟨"Error parsing JSON response from ", ": ", ?_⟩⟩
  · intro hc
    simp [timesolvRequest, hc]
  · intro hc h4 h6
    simp [timesolvRequest, hc, if_pos (And.intro h4 h6)]
  · intro hc hs hb
    simp [timesolvRequest, hc, if_neg hs, hb]
  · simp [httpErrorMsg, String.append_assoc]
  · simp [transportErrorMsg, String.append_assoc]
  · simp [decodeErrorMsg, String.append_assoc]

/-- C6 witness: the amended statement at a concrete transport failure. -/
theorem spec_C6_amended_witness :
    (timesolvRequest oNet 0 defaultBaseURL "POST" "clientSearch" none none
      none).1 = .error (.timeSolvAPIError (transportErrorMsg
        (urljoin defaultBaseURL "clientSearch") "Connection refused")) ∧
    httpErrorMsg "500 Server Error" "boom" ≠
      transportErrorMsg defaultBaseURL "Connection refused" :=
  ⟨(spec_C6_amended oNet 0 defaultBaseURL "clientSearch" none none none
      ⟨200, "", "OK", .ok .null⟩ "Connection refused").1.1 rfl,
   (spec_C6_amended oNet 0 defaultBaseURL "clientSearch" none none none
      ⟨200, "", "OK", .ok .null⟩ "Connection refused").2.2.1 "500 Server Error"
      "boom" defaultBaseURL "Connection refused"⟩

/-- C7: for a client built by `__init__`, every search request actually
issued by a list operation is a POST to the endpoint resolved against the
base URL, carries the headers `Authorization: Bearer <token>` and
`Content-Type: application/json` and no form body, and its JSON payload has
exactly the shape OrderBy / SortOrderAscending / PageSize / PageNumber /
Criteria with PageSize 100, PageNumber `i + 1` for the i-th request (so
starting at 1), and each criterion a FieldName / Operator / Value object. -/
theorem spec_C7 (cfg : List (String × Json)) (base : String)
    (oracle0 : Nat → TransportOutcome) (c : Client)
    (hinit : (initClient cfg base oracle0).1 = .ok c)
    (op : ListOp) (oracle : Nat → TransportOutcome) (fuel : Nat)
    (res : Except PyExn (List Json)) (log : List HttpRequest) (c' : Client)
    (h : runOp op c oracle fuel = some (res, log, c'))
    (i : Nat) (hi : i < log.length) :
    ∃ payload, log[i]? = some ⟨"POST", urljoin base (opEndpoint op),
        some [("Authorization", "Bearer " ++ pyStr c.access_token),
              ("Content-Type", "application/json")],
        some payload, none⟩ ∧ SearchPayloadShape payload (i + 1) := by
  obtain ⟨tok, hc⟩ : ∃ tok, c = ⟨base, tok,
      [("Authorization", "Bearer " ++ pyStr tok),
       ("Content-Type", "application/json")]⟩ := by
    unfold initClient at hinit
    split at hinit
    · simp at hinit
    · rename_i tok log0 heq
      simp only [Except.ok.injEq] at hinit
      exact ⟨tok, hinit.symm⟩
  subst hc
  rw [runOp_eq] at h
  obtain ⟨tail, htail, hreq⟩ := searchLoop_log _ oracle (opEndpoint op)
    (opArrayName op) (opPayload op) (opExtend op) 100 fuel 1 [] [] res log c' h
  rw [List.nil_append] at htail
  subst htail
  obtain ⟨payload, hpay, hget⟩ := hreq i hi
  refine ⟨payload, by simpa [mkSearchReq] using hget, ?_⟩
  cases op with
  | firmUsers => simp [opPayload, firmUsersPayload] at hpay
  | timecards fuid sd ed => simp [opPayload, timecardsPayload] at hpay
  | taskcodes => simp [opPayload, taskcodesPayload] at hpay
  | abbreviations =>
    simp only [opPayload, Except.ok.injEq] at hpay
    refine ⟨.str "Id", .bool false,
      [.obj [("FieldName", .str "IsActive"), ("Operator", .str "="),
             ("Value", .int 1)]], ?_, ?_⟩
    · rw [← hpay]
      simp [abbreviationsPayload]
      omega
    · intro cr hcr
      simp only [List.mem_singleton] at hcr
      exact ⟨.str "IsActive", .str "=", .int 1, hcr⟩
  | clients =>
    simp only [opPayload, Except.ok.injEq] at hpay
    refine ⟨.str "Id", .bool false,
      [.obj [("FieldName", .str "ClientStatus"), ("Operator", .str "="),
             ("Value", .str "Active")]], ?_, ?_⟩
    · rw [← hpay]
      simp [clientsPayload]
      omega
    · intro cr hcr
      simp only [List.mem_singleton] at hcr
      exact ⟨.str "ClientStatus", .str "=", .str "Active", hcr⟩

/-- C7 witness: the one request of a concrete `get_clients` run has the
required method, URL, headers and payload shape at page number 1. -/
theorem spec_C7_witness :
    ∃ payload,
      ([mkSearchReq testClient "clientSearch" (clientsPayload 100 1)][0]?) =
        some ⟨"POST", urljoin defaultBaseURL (opEndpoint .clients),
          some [("Authorization", "Bearer " ++ pyStr testClient.access_token),
                ("Content-Type", "application/json")],
          some payload, none⟩ ∧
      SearchPayloadShape payload (0 + 1) :=
  spec_C7 cfgAuthCode defaultBaseURL goodTokenOracle testClient rfl .clients
    oracle37 5 (.ok (recsOf 37))
    [mkSearchReq testClient "clientSearch" (clientsPayload 100 1)] testClient rfl 0
    (by simp)

/-- C10 witness: the three broken operations at a concrete client, transport
and fuel. -/
theorem spec_C10_witness :
    get_firm_users testClient oracle37 (4 + 1) =
      some (.error (.nameError "false"), [], testClient) ∧
    get_timecards testClient 7 "2024-01-01" "2024-12-31" oracle37 (4 + 1) =
      some (.error (.nameError "true"), [], testClient) ∧
    get_taskcodes testClient oracle37 (4 + 1) =
      some (.error (.nameError "false"), [], testClient) ∧
    firmUsersExtend [] [] = .error (.nameError "firm_list") ∧
    get_firm_users testClient oracle37 3 ≠
      some (.ok (recsOf 37), [], testClient) :=
  let h := spec_C10 testClient oracle37 4 7 "2024-01-01" "2024-12-31"
  ⟨h.1, h.2.1, h.2.2.1, h.2.2.2.1 [] [],
   h.2.2.2.2.1 3 (recsOf 37) [] testClient⟩
